import Mathlib

/-!
Shallow embedding of the Dev_PlotTest data-visualization backend
(FastAPI + Motor/MongoDB + pandas + plotly) and proofs about the
behaviour its specification claims.

The document store is modelled as explicit lists of documents threaded
through every operation.  `ObjectId`s are modelled as `Nat` drawn from a
monotone `nextId` counter.  Python exceptions are modelled with
`Except`/`Option`; an HTTP error response is a `(status, detail)` pair.
Timestamps are abstracted to `Nat` (they never influence control flow in
the embedded code).
-/

namespace PlotApp

/-! ### Cell values

A CSV cell as pandas stores it: a number, a string, or NaN (missing).
`pd.read_csv` only ever produces numbers, strings and NaN for this
code's inputs, so three constructors suffice. -/

inductive Cell where
  | num (q : Rat)
  | str (s : String)
  | missing
deriving DecidableEq, Repr

def Cell.isMissing : Cell → Bool
  | .missing => true
  | _ => false

/-- A data record's `data` field: the row dictionary mapping column name
to cell value (`row.to_dict()` in `create_dataset`). -/
abbrev Row := List (String × Cell)

/-! ### Stored documents (collections `users`, `datasets`, `data_records`, `plots`) -/

/-- Modelled from the spec: the stored user document
(`app/models/user.py` is not under `src/`; fields follow spec section 3:
unique email, username, display name, one-way password hash, active
flag, creation timestamp). -/
structure UserDoc where
  id : Nat
  email : String
  username : String
  full_name : String
  hashed_password : String
  is_active : Bool
  created_at : Nat
deriving DecidableEq, Repr

/-- Modelled from the spec: the API-facing `User` model
(`app/models/user.py` is not under `src/`): the stored document without
the password hash. -/
structure User where
  id : Nat
  email : String
  username : String
  full_name : String
  is_active : Bool
  created_at : Nat
deriving DecidableEq, Repr

/-- `User(**user_doc)`: pydantic drops the extra `hashed_password` key. -/
def UserDoc.toUser (d : UserDoc) : User :=
  { id := d.id, email := d.email, username := d.username,
    full_name := d.full_name, is_active := d.is_active,
    created_at := d.created_at }

/-- `app/models/dataset.py`, class `Dataset` (timestamps abstracted away). -/
structure DatasetDoc where
  id : Nat
  user_id : Nat
  name : String
  description : Option String
  columns : List String
  row_count : Nat
  file_size : Nat
  file_type : String
deriving DecidableEq, Repr

/-- `app/models/dataset.py`, class `DataRecord`. -/
structure RecordDoc where
  id : Nat
  dataset_id : Nat
  data : Row
  row_index : Nat
deriving DecidableEq, Repr

/-- `app/models/plot.py`, class `Plot`.  The free-form `config` mapping
is abstracted to string key-value pairs (its values never influence the
embedded control flow: the code only tests its truthiness and passes it
to `fig.update_layout`). -/
structure PlotDoc where
  id : Nat
  user_id : Nat
  dataset_id : Nat
  title : String
  plot_type : String
  x_axis : String
  y_axis : Option String
  config : List (String × String)
deriving DecidableEq, Repr

/-- The document store: one list per collection plus the id generator. -/
structure DB where
  users : List UserDoc
  datasets : List DatasetDoc
  data_records : List RecordDoc
  plots : List PlotDoc
  nextId : Nat
deriving DecidableEq, Repr

/-- Mongo `update_one` with `$set`: rewrite the first document matching
the filter, leave every other document untouched. -/
def updateFirst (p : α → Bool) (f : α → α) : List α → List α
  | [] => []
  | x :: xs => if p x then f x :: xs else x :: updateFirst p f xs

/-! ### Credential service -/

/-- Modelled from the spec: `get_password_hash`
(`app/core/security.py` is not under `src/`).  Spec section 4.1: a
one-way function; modelled as an injective tagging of the password,
which preserves exactly the property the claims use, namely
`verify(p, hash(q)) = true` iff `p = q`. -/
def get_password_hash (p : String) : String := String.mk ('#' :: p.data)

/-- Modelled from the spec: `verify_password`
(`app/core/security.py` is not under `src/`).  Spec section 4.1:
comparison of the candidate password's hash against the stored hash. -/
def verify_password (p h : String) : Bool := h == get_password_hash p

/-! ### User service (`app/services/user_service.py`) -/

/-- Modelled from the spec: `UserCreate` (`app/models/user.py` is not
under `src/`); the registration payload of spec section 4.2. -/
structure UserCreate where
  email : String
  username : String
  full_name : String
  password : String
deriving DecidableEq, Repr

/-- Modelled from the spec: `UserUpdate` (`app/models/user.py` is not
under `src/`); spec section 4.2's partial update.  A `none` field is
*unset* (pydantic `exclude_unset=True` drops it from the `$set`). -/
structure UserUpdate where
  email : Option String := none
  username : Option String := none
  full_name : Option String := none
  is_active : Option Bool := none
deriving DecidableEq, Repr

/-- `UserService.get_user_by_email`: `find_one({"email": email})`. -/
def get_user_by_email (s : DB) (email : String) : Option User :=
  (s.users.find? fun d => d.email == email).map UserDoc.toUser

/-- `UserService.get_user_by_id`: `find_one({"_id": user_id})`. -/
def get_user_by_id (s : DB) (user_id : Nat) : Option User :=
  (s.users.find? fun d => d.id == user_id).map UserDoc.toUser

/-- `UserService.create_user`.  Raising `ValueError` is modelled as the
`.error` branch; on error the returned state is the unchanged input
state (the `raise` happens before any insert). -/
def create_user (s : DB) (uc : UserCreate) : Except String User × DB :=
  match get_user_by_email s uc.email with
  | some _ => (.error "User with this email already exists", s)
  | none =>
    let doc : UserDoc :=
      { id := s.nextId, email := uc.email, username := uc.username,
        full_name := uc.full_name,
        hashed_password := get_password_hash uc.password,
        is_active := true, created_at := 0 }
    (.ok doc.toUser,
     { s with users := s.users ++ [doc], nextId := s.nextId + 1 })

/-- `UserService.authenticate_user`: look up by email, then verify the
password; `None` on no-match and on mismatch alike. -/
def authenticate_user (s : DB) (email password : String) : Option User :=
  match s.users.find? fun d => d.email == email with
  | none => none
  | some doc =>
    if verify_password password doc.hashed_password then some doc.toUser
    else none

/-- Fields the `$set` document of `update_user` applies to the stored
document: exactly those present in the partial update. -/
def applyUserUpdate (uu : UserUpdate) (d : UserDoc) : UserDoc :=
  { d with
    email := uu.email.getD d.email,
    username := uu.username.getD d.username,
    full_name := uu.full_name.getD d.full_name,
    is_active := uu.is_active.getD d.is_active }

/-- `update_data` is empty iff no field of the partial update was set. -/
def UserUpdate.isEmptyUpdate (uu : UserUpdate) : Bool :=
  uu.email.isNone && uu.username.isNone &&
    uu.full_name.isNone && uu.is_active.isNone

/-- `UserService.update_user`: `update_one({"_id": user_id}, {"$set": update_data})`
when `update_data` is non-empty, then re-read the user. -/
def update_user (s : DB) (user_id : Nat) (uu : UserUpdate) : Option User × DB :=
  let s' :=
    if uu.isEmptyUpdate then s
    else { s with users := updateFirst (fun d => d.id == user_id) (applyUserUpdate uu) s.users }
  (get_user_by_id s' user_id, s')

/-! ### CSV parsing (the `pd.read_csv` front of `create_dataset`)

The uploaded byte string is abstracted as its grid of cell strings
(header line first, one inner list per line, cells already split on the
comma); `pd.read_csv`'s scalar inference is modelled for the inputs this
service meets: empty cell to NaN, decimal numeral to number, anything
else kept as text. -/

/-- Value of a non-empty all-digit character list. -/
def natOfDigits? (l : List Char) : Option Nat :=
  if l.isEmpty then none
  else
    l.foldl
      (fun acc c =>
        match acc with
        | none => none
        | some n => if c.isDigit then some (n * 10 + (c.toNat - 48)) else none)
      (some 0)

/-- Parse an optionally-signed decimal numeral (`-12`, `3.25`, `7`). -/
def ratOfString? (s : String) : Option Rat :=
  let signed : Bool × List Char :=
    match s.data with
    | '-' :: rest => (true, rest)
    | l => (false, l)
  let body := String.mk signed.2
  match body.splitOn "." with
  | [ipart] =>
    (natOfDigits? ipart.data).map fun n =>
      if signed.1 then -(n : Rat) else (n : Rat)
  | [ipart, fpart] =>
    match natOfDigits? ipart.data, natOfDigits? fpart.data with
    | some a, some b =>
      let q : Rat := (a : Rat) + (b : Rat) / ((10 : Rat) ^ fpart.length)
      some (if signed.1 then -q else q)
    | _, _ => none
  | _ => none

/-- Scalar inference for one CSV cell. -/
def parseCell (s : String) : Cell :=
  if s = "" then .missing
  else
    match ratOfString? s with
    | some q => .num q
    | none => .str s

/-- Parsed dataframe: ordered column names and the row dictionaries. -/
structure Df where
  header : List String
  rows : List Row
deriving DecidableEq, Repr

/-- `pd.read_csv` on the cell grid: the first line is the header, each
further line becomes a row dictionary keyed by the header.  An empty
file raises (`EmptyDataError`, a `ValueError`). -/
def read_csv (file : List (List String)) : Except String Df :=
  match file with
  | [] => .error "No columns to parse from file"
  | header :: dataRows =>
    .ok { header := header,
          rows := dataRows.map fun r => header.zip (r.map parseCell) }

/-! ### Pandas descriptive statistics (`DatasetService.get_dataset_stats`) -/

/-- Column names of `pd.DataFrame(data)`: record keys in order of first
appearance. -/
def dfColumns (rows : List Row) : List String :=
  rows.foldl (fun acc r => acc ++ (r.map Prod.fst).filter (fun c => !acc.contains c)) []

/-- The series of one column: a missing key is filled with NaN, as the
dataframe constructor does. -/
def colCells (rows : List Row) (c : String) : List Cell :=
  rows.map fun r => (r.lookup c).getD Cell.missing

/-- The non-missing numeric values of a series (`skipna` view). -/
def numericCells (cells : List Cell) : List Rat :=
  cells.filterMap fun c =>
    match c with
    | .num q => some q
    | _ => none

/-- A column has a numeric dtype iff every cell is a number or NaN
(an all-NaN column is `float64`, hence numeric). -/
def isNumericCol (cells : List Cell) : Bool :=
  cells.all fun c =>
    match c with
    | .num _ => true
    | .missing => true
    | .str _ => false

/-- Pandas dtype name: `int64` for whole numbers with no NaN, `float64`
for other numeric columns, `object` otherwise. -/
def inferDtype (cells : List Cell) : String :=
  if isNumericCol cells then
    if cells.all (fun c => match c with | .num q => q.den == 1 | _ => false)
    then "int64" else "float64"
  else "object"

/-- `Series.mean()` with `skipna`: NaN (`none`) when no value remains. -/
def pandasMean (cells : List Cell) : Option Rat :=
  let ys := numericCells cells
  if ys.isEmpty then none else some (ys.sum / (ys.length : Rat))

/-- `Series.min()` with `skipna`: NaN when no value remains. -/
def pandasMin (cells : List Cell) : Option Rat :=
  match numericCells cells with
  | [] => none
  | x :: xs => some (xs.foldl min x)

/-- `Series.max()` with `skipna`: NaN when no value remains. -/
def pandasMax (cells : List Cell) : Option Rat :=
  match numericCells cells with
  | [] => none
  | x :: xs => some (xs.foldl max x)

/-- `Series.median()`: middle of the sorted values, mean of the two
middles on even length, NaN when no value remains. -/
def pandasMedian (cells : List Cell) : Option Rat :=
  let ys := List.insertionSort (· ≤ ·) (numericCells cells)
  let n := ys.length
  if n = 0 then none
  else if n % 2 = 1 then some (ys.getD (n / 2) 0)
  else some ((ys.getD (n / 2 - 1) 0 + ys.getD (n / 2) 0) / 2)

/-- `Series.std()` squared: the `ddof=1` sample variance, NaN (`none`)
for fewer than two values (pandas yields NaN for n = 0 and 0/0 = NaN
for n = 1).  The reported standard deviation is the square root of this
number, which is irrational in general; the variance determines it
uniquely, is NaN exactly when it is, and is zero exactly when it is, so
the embedding records the variance. -/
def pandasVar (cells : List Cell) : Option Rat :=
  let ys := numericCells cells
  if ys.length < 2 then none
  else
    let m := ys.sum / (ys.length : Rat)
    some (((ys.map fun x => (x - m) ^ 2).sum) / ((ys.length : Rat) - 1))

/-- One `float(...) if not df[col].empty else 0` entry of the summary
dict: `df[col].empty` tests whether the *series length* is zero, not
whether all its values are NaN. -/
def statOrZero (seriesLen : Nat) (v : Option Rat) : Option Rat :=
  if seriesLen ≠ 0 then v else some 0

/-- One numeric column's entry in `summary_stats`; `std_var` carries the
variance under the reported standard deviation (see `pandasVar`). -/
structure ColSummary where
  mean : Option Rat
  std_var : Option Rat
  min : Option Rat
  max : Option Rat
  median : Option Rat
deriving DecidableEq, Repr

/-- The summary entry computed for column `c` of the sampled data. -/
def colSummary (rows : List Row) (c : String) : ColSummary :=
  let cells := colCells rows c
  let n := rows.length
  { mean := statOrZero n (pandasMean cells),
    std_var := statOrZero n (pandasVar cells),
    min := statOrZero n (pandasMin cells),
    max := statOrZero n (pandasMax cells),
    median := statOrZero n (pandasMedian cells) }

/-- `app/models/dataset.py`, class `DatasetStats` (dicts as association
lists in column order). -/
structure DatasetStats where
  total_rows : Nat
  total_columns : Nat
  column_types : List (String × String)
  missing_values : List (String × Nat)
  summary_stats : List (String × ColSummary)
deriving DecidableEq, Repr

/-! ### Dataset service (`app/services/dataset_service.py`) -/

/-- `app/models/dataset.py`, class `DatasetCreate`. -/
structure DatasetCreate where
  name : String
  description : Option String := none
deriving DecidableEq, Repr

/-- `DatasetService.get_dataset_by_id`:
`find_one({"_id": dataset_id, "user_id": user_id})`. -/
def get_dataset_by_id (s : DB) (dataset_id user_id : Nat) : Option DatasetDoc :=
  s.datasets.find? fun d => d.id == dataset_id && d.user_id == user_id

/-- `DatasetService.create_dataset`: parse the CSV, insert the dataset
document (its generated id is `s.nextId`), then insert one record per
dataframe row with `row_index` the row's position.  A parse failure
raises `ValueError` before anything is written.  `file_size` is the byte
length of the upload, passed through (the byte string itself is
abstracted to the cell grid). -/
def create_dataset (s : DB) (user_id : Nat) (dc : DatasetCreate)
    (file : List (List String)) (file_size : Nat) :
    Except String (DatasetDoc × DB) :=
  match read_csv file with
  | .error e => .error ("Error parsing CSV file: " ++ e)
  | .ok df =>
    let ds : DatasetDoc :=
      { id := s.nextId, user_id := user_id, name := dc.name,
        description := dc.description, columns := df.header,
        row_count := df.rows.length, file_size := file_size,
        file_type := "csv" }
    let base := s.nextId + 1
    let recs : List RecordDoc := df.rows.enum.map fun p =>
      { id := base + p.1, dataset_id := ds.id, data := p.2, row_index := p.1 }
    .ok (ds,
      { s with
        datasets := s.datasets ++ [ds],
        data_records := s.data_records ++ recs,
        nextId := base + df.rows.length })

/-- Cursor `.sort("row_index", 1)`. -/
def sortByRowIndex (rs : List RecordDoc) : List RecordDoc :=
  List.insertionSort (fun a b => a.row_index ≤ b.row_index) rs

/-- Cursor `.limit(n)`: pymongo treats `limit(0)` as no limit. -/
def mongoLimit (n : Nat) (xs : List α) : List α :=
  if n = 0 then xs else xs.take n

/-- `DatasetService.get_dataset_data`: empty list unless the dataset is
owned by the caller; otherwise the matching records with the driver's
cursor semantics (sort applies before skip/limit regardless of the call
order on the cursor). -/
def get_dataset_data (s : DB) (dataset_id user_id limit skip : Nat) : List Row :=
  match get_dataset_by_id s dataset_id user_id with
  | none => []
  | some _ =>
    let recs := s.data_records.filter fun r => r.dataset_id == dataset_id
    (mongoLimit limit ((sortByRowIndex recs).drop skip)).map (·.data)

/-- `DatasetService.get_dataset_stats`: `None` when the dataset is
missing, not owned, or has no sampled rows; otherwise dtypes, per-column
NaN counts, and the five summary statistics for numeric columns. -/
def get_dataset_stats (s : DB) (dataset_id user_id : Nat) : Option DatasetStats :=
  match get_dataset_by_id s dataset_id user_id with
  | none => none
  | some _ =>
    let data := get_dataset_data s dataset_id user_id 10000 0
    if data.isEmpty then none
    else
      let cols := dfColumns data
      some
        { total_rows := data.length,
          total_columns := cols.length,
          column_types := cols.map fun c => (c, inferDtype (colCells data c)),
          missing_values := cols.map fun c => (c, (colCells data c).countP Cell.isMissing),
          summary_stats :=
            (cols.filter fun c => isNumericCol (colCells data c)).map
              fun c => (c, colSummary data c) }

/-- `DatasetService.delete_dataset`: bail out unless the dataset is
owned by the caller; then `delete_many` on the child records and
`delete_one` on the dataset. -/
def delete_dataset (s : DB) (dataset_id user_id : Nat) : Bool × DB :=
  match get_dataset_by_id s dataset_id user_id with
  | none => (false, s)
  | some _ =>
    let records' := s.data_records.filter fun r => !(r.dataset_id == dataset_id)
    let matched := s.datasets.any fun d => d.id == dataset_id && d.user_id == user_id
    (matched,
     { s with
       data_records := records',
       datasets := s.datasets.eraseP fun d => d.id == dataset_id && d.user_id == user_id })

/-! ### Plot service (`app/services/plot_service.py`) -/

/-- `app/models/plot.py`, class `PlotUpdate` (pydantic
`exclude_unset=True`: a `none` field here is absent from the `$set`;
the Python-level distinction between an unset optional `y_axis` and one
explicitly set to `null` is folded into the inner `Option`). -/
structure PlotUpdate where
  title : Option String := none
  plot_type : Option String := none
  x_axis : Option String := none
  y_axis : Option (Option String) := none
  config : Option (List (String × String)) := none
deriving DecidableEq, Repr

def PlotUpdate.isEmptyUpdate (pu : PlotUpdate) : Bool :=
  pu.title.isNone && pu.plot_type.isNone && pu.x_axis.isNone &&
    pu.y_axis.isNone && pu.config.isNone

/-- The `$set` document of `update_plot` applied to a stored plot. -/
def applyPlotUpdate (pu : PlotUpdate) (p : PlotDoc) : PlotDoc :=
  { p with
    title := pu.title.getD p.title,
    plot_type := pu.plot_type.getD p.plot_type,
    x_axis := pu.x_axis.getD p.x_axis,
    y_axis := pu.y_axis.getD p.y_axis,
    config := pu.config.getD p.config }

/-- `PlotService.get_plot_by_id`:
`find_one({"_id": plot_id, "user_id": user_id})`. -/
def get_plot_by_id (s : DB) (plot_id user_id : Nat) : Option PlotDoc :=
  s.plots.find? fun p => p.id == plot_id && p.user_id == user_id

/-- `PlotService.update_plot`: owner-filtered `update_one` with `$set`
(skipped when the update is empty), then re-read through the
owner-filtered lookup. -/
def update_plot (s : DB) (plot_id user_id : Nat) (pu : PlotUpdate) :
    Option PlotDoc × DB :=
  let s' :=
    if pu.isEmptyUpdate then s
    else
      { s with
        plots := updateFirst (fun p => p.id == plot_id && p.user_id == user_id)
          (applyPlotUpdate pu) s.plots }
  (get_plot_by_id s' plot_id user_id, s')

/-- `PlotService.delete_plot`: owner-filtered `delete_one`; the result
is `deleted_count > 0`. -/
def delete_plot (s : DB) (plot_id user_id : Nat) : Bool × DB :=
  (s.plots.any fun p => p.id == plot_id && p.user_id == user_id,
   { s with
     plots := s.plots.eraseP fun p => p.id == plot_id && p.user_id == user_id })

/-- Which `plotly.express` constructor the service invoked, with the
axis and title arguments it passed (the figure's internal layout is the
charting library's business and is abstracted to the call shape). -/
inductive PxCall where
  | scatter (x y title : String)
  | scatterIndex (x title : String)
  | line (x y title : String)
  | lineIndex (x title : String)
  | bar (x y title : String)
  | barCounts (x title : String)
  | histogram (x title : String)
  | box (x y title : String)
  | boxSingle (x title : String)
deriving DecidableEq, Repr

/-- A generated chart document: the `px` call that built it plus the
free-form layout overlay applied afterwards (`fig.update_layout`). -/
structure Fig where
  call : PxCall
  layout_overrides : List (String × String)
deriving DecidableEq, Repr

/-- Python truthiness of the optional y-axis string (`None` and the
empty string are falsy). -/
def pyTruthy : Option String → Bool
  | none => false
  | some s => s ≠ ""

/-- Condition `plot.y_axis and plot.y_axis in df.columns`. -/
def yAxisValid (cols : List String) (y : Option String) : Bool :=
  pyTruthy y && cols.contains (y.getD "")

/-- `PlotService.generate_plot_data` (the persisted-plot playback path):
owner-filtered plot lookup, owner-filtered data read, then one `px` call
chosen by `plot_type`, with the stored `config` overlaid.  `ValueError`s
are the `.error` branch. -/
def generate_plot_data (s : DB) (plot_id user_id : Nat) : Except String Fig :=
  match get_plot_by_id s plot_id user_id with
  | none => .error "Plot not found"
  | some plot =>
    let data := get_dataset_data s plot.dataset_id user_id 10000 0
    if data.isEmpty then .error "No data found for plot"
    else
      let cols := dfColumns data
      let yOk := yAxisValid cols plot.y_axis
      let y := plot.y_axis.getD ""
      let call? : Option PxCall :=
        if plot.plot_type = "scatter" then
          some (if yOk then .scatter plot.x_axis y plot.title
                else .scatterIndex plot.x_axis plot.title)
        else if plot.plot_type = "line" then
          some (if yOk then .line plot.x_axis y plot.title
                else .lineIndex plot.x_axis plot.title)
        else if plot.plot_type = "bar" then
          some (if yOk then .bar plot.x_axis y plot.title
                else .barCounts plot.x_axis plot.title)
        else if plot.plot_type = "histogram" then
          some (.histogram plot.x_axis plot.title)
        else if plot.plot_type = "box" then
          some (if yOk then .box plot.x_axis y plot.title
                else .boxSingle plot.x_axis plot.title)
        else none
      match call? with
      | none => .error ("Unsupported plot type: " ++ plot.plot_type)
      | some call => .ok { call := call, layout_overrides := plot.config }

/-! ### HTTP boundary (`backend-python/app/api/plots.py` and
`app/api/data.py`) -/

/-- An `HTTPException`: status code and user-facing detail string. -/
structure HErr where
  status : Nat
  detail : String
deriving DecidableEq, Repr

/-- A Python exception reaching an endpoint's `try` boundary. -/
inductive PyExc where
  | httpException (e : HErr)
  | valueError (msg : String)
  | otherExc (msg : String)
deriving DecidableEq, Repr

/-- The exception boundary of `upload_dataset` (`app/api/data.py`):
`except ValueError` maps the message to a 400; `except Exception`
(which also catches an `HTTPException`, a subclass of `Exception`,
though none is raised inside this `try`) maps everything else to an
opaque 500. -/
def upload_boundary : PyExc → HErr
  | .valueError msg => { status := 400, detail := msg }
  | .httpException _ => { status := 500, detail := "Failed to process dataset" }
  | .otherExc _ => { status := 500, detail := "Failed to process dataset" }

/-- The exception boundary of the ad-hoc `generate_plot` endpoint
(`backend-python/app/api/plots.py`): `except HTTPException: raise`
re-raises, and `except Exception as e` maps every other exception to a
500 whose detail embeds `str(e)`. -/
def generate_plot_boundary : PyExc → HErr
  | .httpException e => e
  | .valueError msg => { status := 500, detail := "Failed to generate plot: " ++ msg }
  | .otherExc msg => { status := 500, detail := "Failed to generate plot: " ++ msg }

/-- Request body of the ad-hoc `/generate` endpoint.  `datasetId` holds
the already-parsed `ObjectId` (the bson parse of the raw string is
external; an unparsable id is rejected with a 400 before this body
runs). -/
structure PlotGenerateRequest where
  datasetId : Nat
  plotType : String
  xAxis : String
  yAxis : Option String := none
  title : Option String := none
deriving DecidableEq, Repr

/-- Python `a or b` for an optional string: the default wins when the
field is `None` or empty. -/
def pyOrElse (o : Option String) (d : String) : String :=
  match o with
  | none => d
  | some s => if s = "" then d else s

/-- Successful body of the ad-hoc `/generate` response.  The figure is
recorded as the `px` call made (the cosmetic `update_xaxes`/`update_yaxes`
relabeling on the frequency-bar branch stays inside the charting
library). -/
structure AdhocPlotResponse where
  success : Bool
  data : PxCall
  title : String
  plotType : String
  xAxis : String
  yAxis : Option String
deriving DecidableEq, Repr

/-- The ad-hoc `generate_plot` endpoint body
(`backend-python/app/api/plots.py`): ownership check, data read,
explicit column validation, then dispatch on `plotType` over scatter,
line, bar and histogram only; every other type string is rejected as
unsupported. -/
def generate_plot_endpoint (s : DB) (user_id : Nat)
    (req : PlotGenerateRequest) : Except HErr AdhocPlotResponse :=
  match get_dataset_by_id s req.datasetId user_id with
  | none => .error { status := 404, detail := "Dataset not found or access denied" }
  | some _ =>
    let data := get_dataset_data s req.datasetId user_id 10000 0
    if data.isEmpty then
      .error { status := 400, detail := "No data found for plot" }
    else
      let cols := dfColumns data
      if !cols.contains req.xAxis then
        .error { status := 400,
                 detail := "Column '" ++ req.xAxis ++ "' not found in dataset" }
      else if pyTruthy req.yAxis && !cols.contains (req.yAxis.getD "") then
        .error { status := 400,
                 detail := "Column '" ++ req.yAxis.getD "" ++ "' not found in dataset" }
      else
        let title := pyOrElse req.title
          (req.plotType ++ " plot of " ++ req.xAxis ++
            (if pyTruthy req.yAxis then " vs " ++ req.yAxis.getD "" else ""))
        let y := req.yAxis.getD ""
        let call? : Option PxCall :=
          if req.plotType = "scatter" then
            some (if pyTruthy req.yAxis then .scatter req.xAxis y title
                  else .scatterIndex req.xAxis title)
          else if req.plotType = "line" then
            some (if pyTruthy req.yAxis then .line req.xAxis y title
                  else .lineIndex req.xAxis title)
          else if req.plotType = "bar" then
            some (if pyTruthy req.yAxis then .bar req.xAxis y title
                  else .barCounts req.xAxis title)
          else if req.plotType = "histogram" then
            some (.histogram req.xAxis title)
          else none
        match call? with
        | none =>
          .error { status := 400,
                   detail := "Unsupported plot type: " ++ req.plotType }
        | some call =>
          .ok { success := true, data := call, title := title,
                plotType := req.plotType, xAxis := req.xAxis,
                yAxis := req.yAxis }

/-! ### OAuth bridge (`app/services/google_oauth_service.py`) -/

/-- Identity dictionary returned on successful verification; every field
comes from `.get(...)` on the provider's response, so each may be
absent. -/
structure GoogleIdentity where
  email : Option String
  name : Option String
  google_id : Option String
  verified : Bool
deriving DecidableEq, Repr

/-- Outcome of one `httpx` GET: a network timeout, or a response with a
status code and a body whose `.json()` either parses (`some`) or raises
on malformed content (`none`). -/
inductive HttpOutcome (α : Type) where
  | timeout
  | resp (status : Nat) (body : Option α)
deriving DecidableEq, Repr

/-- Fields the code reads from the `tokeninfo` JSON; a malformed or
non-integer `expires_in` is folded into the body-level parse failure. -/
structure TokenInfo where
  expires_in : Option Int
deriving DecidableEq, Repr

/-- Fields the code reads from the `userinfo` JSON. -/
structure UserInfo where
  email : Option String
  name : Option String
  id : Option String
  verified_email : Option Bool
deriving DecidableEq, Repr

/-- Claims of a Google ID token that the code reads. -/
structure IdClaims where
  aud : String
  email : Option String
  name : Option String
  sub : Option String
  email_verified : Option Bool
deriving DecidableEq, Repr

/-- The facts about the presented ID token that the external verifier
observes: whether the signature and format check out, whether the token
is expired, and its claims. -/
structure IdTokenFacts where
  valid : Bool
  expired : Bool
  claims : IdClaims
deriving DecidableEq, Repr

/-- Modelled from the spec and the google-auth library's documented
contract (the library is an external collaborator):
`id_token.verify_oauth2_token(token, request, audience)` returns the
claims only for a well-formed, correctly signed, unexpired token whose
`aud` equals the audience argument, and raises otherwise. -/
def verify_oauth2_token (f : IdTokenFacts) (client_id : String) :
    Except Unit IdClaims :=
  if f.valid && !f.expired && f.claims.aud == client_id then .ok f.claims
  else .error ()

/-- The two external HTTP round-trips of the access-token path. -/
structure OAuthWorld where
  tokeninfo : HttpOutcome TokenInfo
  userinfo : HttpOutcome UserInfo
deriving DecidableEq, Repr

/-- Prefix sniffing: `token.startswith('ya29.') or token.startswith('1//')`
(the string prefix test is spelled on the underlying character lists,
which is extensionally `String.startsWith`). -/
def isGoogleAccessToken (t : String) : Bool :=
  "ya29.".data.isPrefixOf t.data || "1//".data.isPrefixOf t.data

/-- `GoogleOAuthService.verify_google_token`.  The whole body sits in a
`try` whose handlers turn `httpx.TimeoutException` and every other
`Exception` into `None`, so the embedding returns `Option`: every
timeout, non-200 status, malformed body and verification error is
`none`. -/
def verify_google_token (client_id : String) (w : OAuthWorld)
    (f : IdTokenFacts) (token : String) : Option GoogleIdentity :=
  if isGoogleAccessToken token then
    match w.tokeninfo with
    | .timeout => none
    | .resp st body =>
      if st ≠ 200 then none
      else
        match body with
        | none => none
        | some ti =>
          let expiredBad : Bool :=
            match ti.expires_in with
            | some e => decide (e ≤ 0)
            | none => false
          if expiredBad then none
          else
            match w.userinfo with
            | .timeout => none
            | .resp st2 body2 =>
              if st2 ≠ 200 then none
              else
                match body2 with
                | none => none
                | some ui =>
                  some { email := ui.email, name := ui.name,
                         google_id := ui.id,
                         verified := ui.verified_email.getD false }
  else
    match verify_oauth2_token f client_id with
    | .error _ => none
    | .ok claims =>
      if claims.aud ≠ client_id then none
      else
        some { email := claims.email, name := claims.name,
               google_id := claims.sub,
               verified := claims.email_verified.getD false }

/-! ### Google login endpoint (`app/api/auth.py`, `google_auth`) -/

/-- Request body of `/api/auth/google`. -/
structure GoogleAuthRequest where
  email : String
  name : String
  google_id : String
deriving DecidableEq, Repr

/-- The `google_auth` endpoint, token issuance abstracted away: log in
an existing account, or auto-provision one whose username is the email
prefix and whose password is the fixed placeholder string
`"google_oauth_user"`.  Any exception inside the `try` becomes an
opaque 500. -/
def google_auth (s : DB) (g : GoogleAuthRequest) : Except HErr (User × DB) :=
  match get_user_by_email s g.email with
  | some u => .ok (u, s)
  | none =>
    match create_user s
        { email := g.email,
          username := (g.email.splitOn "@").headD "",
          full_name := g.name,
          password := "google_oauth_user" } with
    | (.ok u, s') => .ok (u, s')
    | (.error _, _) =>
      .error { status := 500, detail := "Google authentication failed" }

/-! ### Example stores used by concrete evaluations -/

/-- The empty store. -/
def dbEmpty : DB :=
  { users := [], datasets := [], data_records := [], plots := [], nextId := 0 }

/-- The stored document of the example user 1. -/
def userDoc1 : UserDoc :=
  { id := 1, email := "u@x.com", username := "u", full_name := "U",
    hashed_password := get_password_hash "pw", is_active := true,
    created_at := 0 }

/-- Store in which user 1 owns dataset 2, a two-row CSV whose numeric
column `b` consists entirely of missing values. -/
def dbAllMissing : DB :=
  { users := [userDoc1],
    datasets := [{ id := 2, user_id := 1, name := "d", description := none,
                   columns := ["a", "b"], row_count := 2, file_size := 10,
                   file_type := "csv" }],
    data_records :=
      [{ id := 3, dataset_id := 2, data := [("a", .num 1), ("b", .missing)], row_index := 0 },
       { id := 4, dataset_id := 2, data := [("a", .num 2), ("b", .missing)], row_index := 1 }],
    plots := [], nextId := 5 }

/-- `dbAllMissing` extended with two persisted box plots over dataset 2:
plot 6 has no y-axis, plot 7 has y-axis `b`. -/
def dbBoxPlot : DB :=
  { dbAllMissing with
    plots := [{ id := 6, user_id := 1, dataset_id := 2, title := "t6",
                plot_type := "box", x_axis := "a", y_axis := none, config := [] },
              { id := 7, user_id := 1, dataset_id := 2, title := "t7",
                plot_type := "box", x_axis := "a", y_axis := some "b",
                config := [("width", "640")] }],
    nextId := 8 }

/-- Store holding a dataset (id 5) and a plot (id 6) that belong to
user 7, probed by the unrelated user 1. -/
def dbOther : DB :=
  { users := [{ id := 7, email := "o@x.com", username := "o", full_name := "O",
                hashed_password := get_password_hash "pw2",
                is_active := true, created_at := 0 }],
    datasets := [{ id := 5, user_id := 7, name := "od", description := none,
                   columns := ["a"], row_count := 1, file_size := 4,
                   file_type := "csv" }],
    data_records := [{ id := 8, dataset_id := 5, data := [("a", .num 3)], row_index := 0 }],
    plots := [{ id := 6, user_id := 7, dataset_id := 5, title := "op",
                plot_type := "bar", x_axis := "a", y_axis := none, config := [] }],
    nextId := 9 }

/-! ### Helper lemmas -/

theorem get_password_hash_injective {p q : String}
    (h : get_password_hash p = get_password_hash q) : p = q := by
  cases p
  cases q
  unfold get_password_hash at h
  injection h with hdata
  injection hdata with _ htail
  exact congrArg String.mk htail

theorem updateFirst_of_forall_not {α : Type _} {p : α → Bool} {f : α → α}
    {l : List α} (h : ∀ a ∈ l, ¬p a = true) : updateFirst p f l = l := by
  induction l with
  | nil => rfl
  | cons x xs ih =>
    simp only [updateFirst]
    rw [if_neg (h x (List.mem_cons_self x xs))]
    rw [ih fun a ha => h a (List.mem_cons_of_mem x ha)]

theorem mem_updateFirst_of_neg {α : Type _} {p : α → Bool} {f : α → α}
    {a : α} {l : List α} (ha : a ∈ l) (hp : ¬p a = true) :
    a ∈ updateFirst p f l := by
  induction l with
  | nil => cases ha
  | cons x xs ih =>
    simp only [updateFirst]
    by_cases hx : p x = true
    · rw [if_pos hx]
      rcases List.mem_cons.mp ha with rfl | hmem
      · exact absurd hx hp
      · exact List.mem_cons_of_mem _ hmem
    · rw [if_neg hx]
      rcases List.mem_cons.mp ha with rfl | hmem
      · exact List.mem_cons_self _ _
      · exact List.mem_cons_of_mem _ (ih hmem)

theorem updateFirst_append {α : Type _} {p : α → Bool} {f : α → α}
    {l₁ l₂ : List α} {d : α} (h₁ : ∀ x ∈ l₁, ¬p x = true) (hd : p d = true) :
    updateFirst p f (l₁ ++ d :: l₂) = l₁ ++ f d :: l₂ := by
  induction l₁ with
  | nil => simp [updateFirst, hd]
  | cons x xs ih =>
    simp only [List.cons_append, updateFirst]
    rw [if_neg (h₁ x (List.mem_cons_self x xs))]
    exact congrArg (List.cons x) (ih fun a ha => h₁ a (List.mem_cons_of_mem x ha))

/-! ### Claim C1 -/

/-- C1 (code bug witness): in `dbAllMissing` the numeric column `b` of
dataset 2 consists entirely of missing values.  The claim (and the
spec's edge-case policy) says `stats` then reports mean, standard
deviation, min, max and median all equal to 0 for that column; the code
instead reports NaN (`none`) for all five, because the
`if not df[col].empty else 0` guard tests series *length*, which is 2
here (the guard is unreachable anyway: stats bails out earlier whenever
there are no rows).  The missing-value count does equal the row
count 2. -/
theorem stats_all_missing_column_yields_nan_not_zero :
    (get_dataset_stats dbAllMissing 2 1).map
        (fun st =>
          (st.total_rows, st.missing_values.lookup "b", st.summary_stats.lookup "b")) =
      some (2, some 2,
        some { mean := none, std_var := none, min := none,
               max := none, median := none }) := by
  decide

/-! ### Claim C4 -/

/-- C4 counterexample: the catch-all boundary of the ad-hoc
plot-generation endpoint surfaces the internal exception text verbatim
inside its 500 detail, so the surfaced error is not an opaque generic
message. -/
theorem generate_plot_boundary_leaks_exception_detail :
    generate_plot_boundary (.otherExc "KeyError: 'x'") =
      { status := 500, detail := "Failed to generate plot: KeyError: 'x'" } := by
  decide

/-- C4 (amended): for every unanticipated exception, the dataset-upload
boundary surfaces the fixed opaque detail `Failed to process dataset`,
while the ad-hoc plot-generation boundary surfaces
`Failed to generate plot: ` followed by the exception's own message —
internal exception detail does cross that boundary. -/
theorem upload_boundary_opaque_generate_boundary_not :
    (∀ msg, upload_boundary (.otherExc msg) =
      { status := 500, detail := "Failed to process dataset" })
    ∧ (∀ msg, generate_plot_boundary (.otherExc msg) =
      { status := 500, detail := "Failed to generate plot: " ++ msg }) :=
  ⟨fun _ => rfl, fun _ => rfl⟩

/-! ### Claim C7 -/

/-- C7: whenever some stored user already holds the requested email,
`create_user` fails with the duplicate-user error regardless of every
other supplied field, and returns the store unchanged (no record is
persisted). -/
theorem create_user_duplicate_email_fails_without_insert :
    ∀ (s : DB) (uc : UserCreate),
      (∃ d ∈ s.users, d.email = uc.email) →
      create_user s uc = (.error "User with this email already exists", s) := by
  intro s uc ⟨d, hd, he⟩
  unfold create_user get_user_by_email
  cases hfind : s.users.find? fun x => x.email == uc.email with
  | none =>
    exact absurd (List.find?_eq_none.mp hfind d hd) (by simp [he])
  | some _ => rfl

/-- C7 witness: registering a second account with the already-stored
email `u@x.com` fails and leaves the store untouched. -/
theorem create_user_duplicate_email_witness :
    create_user dbAllMissing
        { email := "u@x.com", username := "v", full_name := "V", password := "q" } =
      (.error "User with this email already exists", dbAllMissing) :=
  create_user_duplicate_email_fails_without_insert dbAllMissing _
    ⟨userDoc1, by decide, rfl⟩

theorem get_user_by_email_none_iff {s : DB} {e : String} :
    get_user_by_email s e = none ↔ ∀ d ∈ s.users, d.email ≠ e := by
  unfold get_user_by_email
  rw [Option.map_eq_none']
  rw [List.find?_eq_none]
  constructor
  · intro h d hd
    simpa using h d hd
  · intro h d hd
    simpa using h d hd

theorem create_user_ok_inv {s : DB} {uc : UserCreate} {u : User} {s' : DB}
    (h : create_user s uc = (.ok u, s')) :
    get_user_by_email s uc.email = none
    ∧ ∃ doc : UserDoc,
        s'.users = s.users ++ [doc]
        ∧ u = doc.toUser
        ∧ doc.email = uc.email
        ∧ doc.hashed_password = get_password_hash uc.password := by
  unfold create_user at h
  cases hfind : get_user_by_email s uc.email with
  | some v =>
    rw [hfind] at h
    simp only [Prod.mk.injEq] at h
    exact absurd h.1 (by simp)
  | none =>
    rw [hfind] at h
    simp only [Prod.mk.injEq, Except.ok.injEq] at h
    obtain ⟨hu, hs⟩ := h
    subst hs
    exact ⟨rfl, _, rfl, hu.symm, rfl, rfl⟩

theorem find?_email_append {base : List UserDoc} {doc : UserDoc} {e : String}
    (hb : ∀ d ∈ base, d.email ≠ e) (hdoc : doc.email = e) :
    (base ++ [doc]).find? (fun d => d.email == e) = some doc := by
  rw [List.find?_append]
  have h1 : base.find? (fun d => d.email == e) = none :=
    List.find?_eq_none.mpr fun x hx => by simpa using hb x hx
  rw [h1]
  simp [List.find?, hdoc]

theorem authenticate_user_absent {s : DB} {e pw : String}
    (h : ∀ d ∈ s.users, d.email ≠ e) : authenticate_user s e pw = none := by
  unfold authenticate_user
  have hfind : s.users.find? (fun d => d.email == e) = none :=
    List.find?_eq_none.mpr fun x hx => by simpa using h x hx
  rw [hfind]

/-! ### Claim C6 -/

/-- C6: after a successful `create_user`, `authenticate_user` with the
registered email and password returns exactly the created user; any
other password yields `none`; an email held by no stored user yields
`none` for every password; and the two absent outcomes are literally
the same signal. -/
theorem authenticate_matches_create_user :
    ∀ (s : DB) (uc : UserCreate) (u : User) (s' : DB),
      create_user s uc = (.ok u, s') →
      authenticate_user s' uc.email uc.password = some u
      ∧ (∀ pw, pw ≠ uc.password → authenticate_user s' uc.email pw = none)
      ∧ (∀ e pw, (∀ d ∈ s'.users, d.email ≠ e) → authenticate_user s' e pw = none)
      ∧ (∀ e pw pw', pw' ≠ uc.password → (∀ d ∈ s'.users, d.email ≠ e) →
          authenticate_user s' uc.email pw' = authenticate_user s' e pw) := by
  intro s uc u s' h
  obtain ⟨hnone, doc, husers, hu, hemail, hhash⟩ := create_user_ok_inv h
  have hbase : ∀ d ∈ s.users, d.email ≠ uc.email :=
    get_user_by_email_none_iff.mp hnone
  have hfind : s'.users.find? (fun d => d.email == uc.email) = some doc := by
    rw [husers]
    exact find?_email_append hbase hemail
  have hok : authenticate_user s' uc.email uc.password = some u := by
    unfold authenticate_user
    simp only [hfind]
    rw [hhash]
    unfold verify_password
    simp [hu]
  have hwrong : ∀ pw, pw ≠ uc.password → authenticate_user s' uc.email pw = none := by
    intro pw hpw
    have hv : verify_password pw doc.hashed_password = false := by
      rw [hhash]
      unfold verify_password
      exact beq_eq_false_iff_ne.mpr
        fun hcontra => hpw (get_password_hash_injective hcontra).symm
    unfold authenticate_user
    simp only [hfind, hv]
    simp
  refine ⟨hok, hwrong, fun e pw habs => authenticate_user_absent habs, ?_⟩
  intro e pw pw' hpw' habs
  rw [hwrong pw' hpw', authenticate_user_absent habs]

/-- C6 witness: registering `a@b.c` with password `pw` on the empty
store, then authenticating with the right password, a wrong password,
and an unknown email. -/
theorem authenticate_matches_create_user_witness :
    authenticate_user
        { users := [{ id := 0, email := "a@b.c", username := "a", full_name := "A",
                      hashed_password := get_password_hash "pw", is_active := true,
                      created_at := 0 }],
          datasets := [], data_records := [], plots := [], nextId := 1 }
        "a@b.c" "pw" =
      some { id := 0, email := "a@b.c", username := "a", full_name := "A",
             is_active := true, created_at := 0 }
    ∧ authenticate_user
        { users := [{ id := 0, email := "a@b.c", username := "a", full_name := "A",
                      hashed_password := get_password_hash "pw", is_active := true,
                      created_at := 0 }],
          datasets := [], data_records := [], plots := [], nextId := 1 }
        "a@b.c" "zz" = none
    ∧ authenticate_user
        { users := [{ id := 0, email := "a@b.c", username := "a", full_name := "A",
                      hashed_password := get_password_hash "pw", is_active := true,
                      created_at := 0 }],
          datasets := [], data_records := [], plots := [], nextId := 1 }
        "n@b.c" "pw" = none := by
  have h := authenticate_matches_create_user dbEmpty
    { email := "a@b.c", username := "a", full_name := "A", password := "pw" }
    { id := 0, email := "a@b.c", username := "a", full_name := "A",
      is_active := true, created_at := 0 }
    { users := [{ id := 0, email := "a@b.c", username := "a", full_name := "A",
                  hashed_password := get_password_hash "pw", is_active := true,
                  created_at := 0 }],
      datasets := [], data_records := [], plots := [], nextId := 1 }
    rfl
  exact ⟨h.1, h.2.1 "zz" (by decide), h.2.2.1 "n@b.c" "pw" (by decide)⟩

/-! ### Claim C9 -/

/-- C9: `update_user` rewrites exactly the stored document with the
requested id, and on that document it sets exactly the fields present in
the partial update, leaving every unspecified field — including ones the
update model cannot even express, such as the password hash and the
creation timestamp — at its previous value; every other document is
untouched, and an empty partial update leaves the whole store
unchanged. -/
theorem update_user_applies_exactly_set_fields :
    ∀ (s : DB) (uid : Nat) (uu : UserUpdate) (l₁ l₂ : List UserDoc) (d : UserDoc),
      s.users = l₁ ++ d :: l₂ →
      (∀ x ∈ l₁, x.id ≠ uid) →
      d.id = uid →
      (uu.isEmptyUpdate = true → update_user s uid uu = (get_user_by_id s uid, s))
      ∧ (update_user s uid uu).2.users = l₁ ++ applyUserUpdate uu d :: l₂
      ∧ (applyUserUpdate uu d).id = d.id
      ∧ (applyUserUpdate uu d).hashed_password = d.hashed_password
      ∧ (applyUserUpdate uu d).created_at = d.created_at
      ∧ (∀ v, uu.email = some v → (applyUserUpdate uu d).email = v)
      ∧ (uu.email = none → (applyUserUpdate uu d).email = d.email)
      ∧ (∀ v, uu.username = some v → (applyUserUpdate uu d).username = v)
      ∧ (uu.username = none → (applyUserUpdate uu d).username = d.username)
      ∧ (∀ v, uu.full_name = some v → (applyUserUpdate uu d).full_name = v)
      ∧ (uu.full_name = none → (applyUserUpdate uu d).full_name = d.full_name)
      ∧ (∀ v, uu.is_active = some v → (applyUserUpdate uu d).is_active = v)
      ∧ (uu.is_active = none → (applyUserUpdate uu d).is_active = d.is_active) := by
  intro s uid uu l₁ l₂ d husers hl₁ hdid
  refine ⟨?_, ?_, rfl, rfl, rfl, ?_, ?_, ?_, ?_, ?_, ?_, ?_, ?_⟩
  · intro hemp
    unfold update_user
    rw [if_pos hemp]
  · by_cases hemp : uu.isEmptyUpdate = true
    · have h4 := hemp
      unfold UserUpdate.isEmptyUpdate at h4
      simp only [Bool.and_eq_true, Option.isNone_iff_eq_none] at h4
      obtain ⟨⟨⟨he, hun⟩, hfn⟩, hia⟩ := h4
      have happ : applyUserUpdate uu d = d := by
        simp [applyUserUpdate, he, hun, hfn, hia]
      unfold update_user
      rw [if_pos hemp, happ, husers]
    · have hpred : (fun x : UserDoc => x.id == uid) d = true := by simp [hdid]
      have hl₁' : ∀ x ∈ l₁, ¬((fun x : UserDoc => x.id == uid) x = true) :=
        fun x hx => by simpa using hl₁ x hx
      unfold update_user
      rw [if_neg hemp]
      simp only [husers]
      exact updateFirst_append hl₁' hpred
  · intro v hv
    simp [applyUserUpdate, hv]
  · intro hv
    simp [applyUserUpdate, hv]
  · intro v hv
    simp [applyUserUpdate, hv]
  · intro hv
    simp [applyUserUpdate, hv]
  · intro v hv
    simp [applyUserUpdate, hv]
  · intro hv
    simp [applyUserUpdate, hv]
  · intro v hv
    simp [applyUserUpdate, hv]
  · intro hv
    simp [applyUserUpdate, hv]

/-- C9 witness: setting only the username of user 1 rewrites exactly
that document by the partial update. -/
theorem update_user_applies_exactly_set_fields_witness :
    (update_user dbAllMissing 1 { username := some "w" }).2.users =
      [] ++ applyUserUpdate { username := some "w" } userDoc1 :: [] := by
  have h := update_user_applies_exactly_set_fields dbAllMissing 1
    { username := some "w" } [] [] userDoc1 rfl (by simp) rfl
  exact h.2.1

/-! ### Claim C10 -/

/-- C10: when the Google login endpoint sees an email with no stored
account, it provisions one whose stored hash is the hash of the fixed
placeholder string `google_oauth_user`, and password login with that
constant placeholder then succeeds for the new account. -/
theorem google_auth_autoprovision_placeholder_password :
    ∀ (s : DB) (g : GoogleAuthRequest),
      get_user_by_email s g.email = none →
      ∃ (u : User) (s' : DB),
        google_auth s g = .ok (u, s')
        ∧ (∃ d ∈ s'.users, d.email = g.email
            ∧ d.hashed_password = get_password_hash "google_oauth_user")
        ∧ authenticate_user s' g.email "google_oauth_user" = some u := by
  intro s g hnone
  have hcreate :
      create_user s
        { email := g.email, username := (g.email.splitOn "@").headD "",
          full_name := g.name, password := "google_oauth_user" } =
      (.ok ({ id := s.nextId, email := g.email,
              username := (g.email.splitOn "@").headD "",
              full_name := g.name,
              hashed_password := get_password_hash "google_oauth_user",
              is_active := true, created_at := 0 } : UserDoc).toUser,
       { s with
         users := s.users ++
           [{ id := s.nextId, email := g.email,
              username := (g.email.splitOn "@").headD "",
              full_name := g.name,
              hashed_password := get_password_hash "google_oauth_user",
              is_active := true, created_at := 0 }],
         nextId := s.nextId + 1 }) := by
    unfold create_user
    rw [show get_user_by_email s
        ({ email := g.email, username := (g.email.splitOn "@").headD "",
           full_name := g.name, password := "google_oauth_user" } : UserCreate).email
        = none from hnone]
  have hgoogle :
      google_auth s g =
        .ok (({ id := s.nextId, email := g.email,
                username := (g.email.splitOn "@").headD "",
                full_name := g.name,
                hashed_password := get_password_hash "google_oauth_user",
                is_active := true, created_at := 0 } : UserDoc).toUser,
          { s with
            users := s.users ++
              [{ id := s.nextId, email := g.email,
                 username := (g.email.splitOn "@").headD "",
                 full_name := g.name,
                 hashed_password := get_password_hash "google_oauth_user",
                 is_active := true, created_at := 0 }],
            nextId := s.nextId + 1 }) := by
    unfold google_auth
    rw [hnone, hcreate]
  refine ⟨_, _, hgoogle, ⟨_, List.mem_append_right _ (List.mem_singleton_self _), rfl, rfl⟩, ?_⟩
  have hbase : ∀ d ∈ s.users, d.email ≠ g.email :=
    get_user_by_email_none_iff.mp hnone
  unfold authenticate_user
  rw [show ({ s with
        users := s.users ++
          [{ id := s.nextId, email := g.email,
             username := (g.email.splitOn "@").headD "",
             full_name := g.name,
             hashed_password := get_password_hash "google_oauth_user",
             is_active := true, created_at := 0 }],
        nextId := s.nextId + 1 } : DB).users
      = s.users ++
          [{ id := s.nextId, email := g.email,
             username := (g.email.splitOn "@").headD "",
             full_name := g.name,
             hashed_password := get_password_hash "google_oauth_user",
             is_active := true, created_at := 0 }] from rfl]
  rw [find?_email_append hbase rfl]
  unfold verify_password
  simp

/-- C10 witness: auto-provisioning `g@y.com` on the empty store and
logging in with the constant placeholder password. -/
theorem google_auth_autoprovision_witness :
    get_user_by_email dbEmpty "g@y.com" = none
    ∧ ∃ (u : User) (s' : DB),
        google_auth dbEmpty { email := "g@y.com", name := "G", google_id := "1" } = .ok (u, s')
        ∧ (∃ d ∈ s'.users, d.email = "g@y.com"
            ∧ d.hashed_password = get_password_hash "google_oauth_user")
        ∧ authenticate_user s' "g@y.com" "google_oauth_user" = some u :=
  ⟨by decide,
   google_auth_autoprovision_placeholder_password dbEmpty
     { email := "g@y.com", name := "G", google_id := "1" } (by decide)⟩

/-! ### Claim C3 -/

/-- C3: uploading a CSV whose header row is `a,b,c` followed by two
data rows creates a dataset with `columns = [a, b, c]` and
`row_count = 2`, persists exactly two data records for it carrying
`row_index` 0 and 1 and the parsed row dictionaries, and a subsequent
`get_dataset_data` read returns those two rows in row-index order 0
then 1.  The freshness hypotheses say the generated id is not already
taken, which the id generator guarantees. -/
theorem create_dataset_roundtrip :
    ∀ (s : DB) (uid : Nat) (dc : DatasetCreate) (r1 r2 : List String) (fsize : Nat),
      r1.length = 3 → r2.length = 3 →
      (∀ d ∈ s.datasets, d.id ≠ s.nextId) →
      (∀ r ∈ s.data_records, r.dataset_id ≠ s.nextId) →
      ∃ (ds : DatasetDoc) (s' : DB),
        create_dataset s uid dc [["a", "b", "c"], r1, r2] fsize = .ok (ds, s')
        ∧ ds.columns = ["a", "b", "c"]
        ∧ ds.row_count = 2
        ∧ s'.data_records.filter (fun r => r.dataset_id == ds.id) =
            [{ id := s.nextId + 1, dataset_id := s.nextId,
               data := ["a", "b", "c"].zip (r1.map parseCell), row_index := 0 },
             { id := s.nextId + 1 + 1, dataset_id := s.nextId,
               data := ["a", "b", "c"].zip (r2.map parseCell), row_index := 1 }]
        ∧ get_dataset_data s' s.nextId uid 100 0 =
            [["a", "b", "c"].zip (r1.map parseCell),
             ["a", "b", "c"].zip (r2.map parseCell)] := by
  intro s uid dc r1 r2 fsize h1 h2 hds hrec
  have hfilter :
      (s.data_records ++
          ([{ id := s.nextId + 1, dataset_id := s.nextId,
              data := ["a", "b", "c"].zip (r1.map parseCell), row_index := 0 },
            { id := s.nextId + 1 + 1, dataset_id := s.nextId,
              data := ["a", "b", "c"].zip (r2.map parseCell), row_index := 1 }] :
            List RecordDoc)).filter
          (fun r => r.dataset_id == s.nextId) =
        ([{ id := s.nextId + 1, dataset_id := s.nextId,
            data := ["a", "b", "c"].zip (r1.map parseCell), row_index := 0 },
          { id := s.nextId + 1 + 1, dataset_id := s.nextId,
            data := ["a", "b", "c"].zip (r2.map parseCell), row_index := 1 }] :
          List RecordDoc) := by
    rw [List.filter_append]
    have hold : s.data_records.filter (fun r => r.dataset_id == s.nextId) = [] :=
      List.filter_eq_nil_iff.mpr fun r hr => by simpa using hrec r hr
    rw [hold]
    simp [List.filter]
  refine ⟨_, _, rfl, rfl, rfl, hfilter, ?_⟩
  unfold get_dataset_data get_dataset_by_id
  have hfindds :
      (s.datasets ++
          ([{ id := s.nextId, user_id := uid, name := dc.name,
              description := dc.description, columns := ["a", "b", "c"],
              row_count := 2, file_size := fsize, file_type := "csv" }] :
            List DatasetDoc)).find?
          (fun d => d.id == s.nextId && d.user_id == uid) =
        some ({ id := s.nextId, user_id := uid, name := dc.name,
                description := dc.description, columns := ["a", "b", "c"],
                row_count := 2, file_size := fsize, file_type := "csv" } :
              DatasetDoc) := by
    rw [List.find?_append]
    have hbase : s.datasets.find? (fun d => d.id == s.nextId && d.user_id == uid) = none :=
      List.find?_eq_none.mpr fun d hd => by simp [hds d hd]
    rw [hbase]
    simp [List.find?]
  have hlen :
      (List.map (fun r => ["a", "b", "c"].zip (List.map parseCell r)) [r1, r2]).length = 2 := rfl
  have henum :
      List.map
          (fun p => ({ id := s.nextId + 1 + p.1, dataset_id := s.nextId,
                       data := p.2, row_index := p.1 } : RecordDoc))
          (List.map (fun r => ["a", "b", "c"].zip (List.map parseCell r)) [r1, r2]).enum =
        [{ id := s.nextId + 1, dataset_id := s.nextId,
           data := ["a", "b", "c"].zip (r1.map parseCell), row_index := 0 },
         { id := s.nextId + 1 + 1, dataset_id := s.nextId,
           data := ["a", "b", "c"].zip (r2.map parseCell), row_index := 1 }] := rfl
  simp only [hlen, henum, hfindds, hfilter]
  rfl

/-- C3 witness: a concrete upload of `a,b,c` with rows `1,2,3` and
`x,,2.5` on the empty store. -/
theorem create_dataset_roundtrip_witness :
    ∃ (ds : DatasetDoc) (s' : DB),
      create_dataset dbEmpty 1 { name := "n", description := none }
          [["a", "b", "c"], ["1", "2", "3"], ["x", "", "2.5"]] 20 = .ok (ds, s')
      ∧ ds.columns = ["a", "b", "c"]
      ∧ ds.row_count = 2
      ∧ s'.data_records.filter (fun r => r.dataset_id == ds.id) =
          [{ id := 1, dataset_id := 0,
             data := ["a", "b", "c"].zip (["1", "2", "3"].map parseCell), row_index := 0 },
           { id := 2, dataset_id := 0,
             data := ["a", "b", "c"].zip (["x", "", "2.5"].map parseCell), row_index := 1 }]
      ∧ get_dataset_data s' 0 1 100 0 =
          [["a", "b", "c"].zip (["1", "2", "3"].map parseCell),
           ["a", "b", "c"].zip (["x", "", "2.5"].map parseCell)] :=
  create_dataset_roundtrip dbEmpty 1 { name := "n", description := none }
    ["1", "2", "3"] ["x", "", "2.5"] 20 rfl rfl
    (fun d hd => absurd hd (List.not_mem_nil d))
    (fun r hr => absurd hr (List.not_mem_nil r))

/-! ### Claim C5 -/

/-- C5 counterexample: the ad-hoc preview path does *not* render box
plots.  A box request over an owned, non-empty dataset with a valid
x-axis column is rejected as an unsupported plot type, contradicting
the claim that `box` succeeds on both paths. -/
theorem adhoc_box_request_rejected_unsupported :
    generate_plot_endpoint dbAllMissing 1
        { datasetId := 2, plotType := "box", xAxis := "a" } =
      .error { status := 400, detail := "Unsupported plot type: box" } := rfl

/-- C5 (amended): on the persisted-plot path a `box` plot succeeds and
charts the distribution of the y column grouped by x when y is present
and valid (`px.box(df, x=?, y=?)`), and the distribution of the x
column alone otherwise (`px.box(df, y=x_axis)`); the ad-hoc preview
path instead rejects `box` with `UnsupportedPlotType` even when every
other validation passes. -/
theorem box_persisted_renders_adhoc_rejects :
    (∀ (s : DB) (pid uid : Nat) (plot : PlotDoc),
      get_plot_by_id s pid uid = some plot →
      plot.plot_type = "box" →
      (get_dataset_data s plot.dataset_id uid 10000 0).isEmpty = false →
      generate_plot_data s pid uid = .ok
        { call :=
            if yAxisValid (dfColumns (get_dataset_data s plot.dataset_id uid 10000 0)) plot.y_axis
            then PxCall.box plot.x_axis (plot.y_axis.getD "") plot.title
            else PxCall.boxSingle plot.x_axis plot.title,
          layout_overrides := plot.config })
    ∧ (∀ (s : DB) (uid : Nat) (req : PlotGenerateRequest) (dsd : DatasetDoc),
        req.plotType = "box" →
        get_dataset_by_id s req.datasetId uid = some dsd →
        (get_dataset_data s req.datasetId uid 10000 0).isEmpty = false →
        (dfColumns (get_dataset_data s req.datasetId uid 10000 0)).contains req.xAxis = true →
        (pyTruthy req.yAxis &&
          !(dfColumns (get_dataset_data s req.datasetId uid 10000 0)).contains (req.yAxis.getD "")) = false →
        generate_plot_endpoint s uid req =
          .error { status := 400, detail := "Unsupported plot type: box" }) := by
  constructor
  · intro s pid uid plot hplot htype hdata
    unfold generate_plot_data
    simp only [hplot, hdata, htype, Bool.false_eq_true, if_false]
    simp
  · intro s uid req dsd hty hds hdata hx hy
    unfold generate_plot_endpoint
    simp only [hds, hdata, hx, hy, hty, Bool.false_eq_true, if_false,
      Bool.not_true, Bool.false_eq_true]
    simp

/-- C5 witness: in `dbBoxPlot`, persisted box plot 6 (no y-axis) charts
the distribution of column `a` alone, persisted box plot 7 (y-axis `b`)
charts `b` grouped by `a` with its config overlaid, and the same user's
ad-hoc box request is rejected as unsupported. -/
theorem box_persisted_renders_adhoc_rejects_witness :
    generate_plot_data dbBoxPlot 6 1 =
      .ok { call := PxCall.boxSingle "a" "t6", layout_overrides := [] }
    ∧ generate_plot_data dbBoxPlot 7 1 =
      .ok { call := PxCall.box "a" "b" "t7", layout_overrides := [("width", "640")] }
    ∧ generate_plot_endpoint dbOther 7
        { datasetId := 5, plotType := "box", xAxis := "a" } =
      .error { status := 400, detail := "Unsupported plot type: box" } := by
  refine ⟨?_, ?_, ?_⟩
  · exact box_persisted_renders_adhoc_rejects.1 dbBoxPlot 6 1
      { id := 6, user_id := 1, dataset_id := 2, title := "t6",
        plot_type := "box", x_axis := "a", y_axis := none, config := [] }
      rfl rfl rfl
  · exact box_persisted_renders_adhoc_rejects.1 dbBoxPlot 7 1
      { id := 7, user_id := 1, dataset_id := 2, title := "t7",
        plot_type := "box", x_axis := "a", y_axis := some "b",
        config := [("width", "640")] }
      rfl rfl rfl
  · exact box_persisted_renders_adhoc_rejects.2 dbOther 7
      { datasetId := 5, plotType := "box", xAxis := "a" }
      { id := 5, user_id := 7, name := "od", description := none,
        columns := ["a"], row_count := 1, file_size := 4, file_type := "csv" }
      rfl rfl rfl rfl rfl

/-! ### Claim C8 -/

/-- C8: `verify_google_token` fails closed.  Its whole body sits inside
the `try` whose handlers map timeouts and every other exception to
`None`, so the embedding is a total function into `Option`; this
theorem checks every failure mode individually: on the access-token
path a network timeout, a non-200 status, a malformed body, or an
expired token — at either round-trip — yields `none`; on the ID-token
path an invalid, expired or wrong-audience token yields `none`, and a
non-`none` identity is produced only when the token is unexpired and
its audience claim equals the configured client id. -/
theorem verify_google_token_fails_closed :
    ∀ (cid : String) (w : OAuthWorld) (f : IdTokenFacts) (t : String),
      (isGoogleAccessToken t = true →
        (w.tokeninfo = .timeout → verify_google_token cid w f t = none)
        ∧ (∀ st b, w.tokeninfo = .resp st b → st ≠ 200 →
            verify_google_token cid w f t = none)
        ∧ (w.tokeninfo = .resp 200 none → verify_google_token cid w f t = none)
        ∧ (∀ ti e, w.tokeninfo = .resp 200 (some ti) → ti.expires_in = some e →
            e ≤ 0 → verify_google_token cid w f t = none)
        ∧ (∀ ti, w.tokeninfo = .resp 200 (some ti) → w.userinfo = .timeout →
            verify_google_token cid w f t = none)
        ∧ (∀ ti st2 b2, w.tokeninfo = .resp 200 (some ti) →
            w.userinfo = .resp st2 b2 → st2 ≠ 200 →
            verify_google_token cid w f t = none)
        ∧ (∀ ti, w.tokeninfo = .resp 200 (some ti) → w.userinfo = .resp 200 none →
            verify_google_token cid w f t = none))
      ∧ (isGoogleAccessToken t = false →
          (f.valid = false → verify_google_token cid w f t = none)
          ∧ (f.expired = true → verify_google_token cid w f t = none)
          ∧ (f.claims.aud ≠ cid → verify_google_token cid w f t = none)
          ∧ (∀ ident, verify_google_token cid w f t = some ident →
              f.expired = false ∧ f.claims.aud = cid)) := by
  intro cid w f t
  constructor
  · intro hacc
    refine ⟨?_, ?_, ?_, ?_, ?_, ?_, ?_⟩
    · intro hw
      simp [verify_google_token, hacc, hw]
    · intro st b hw hst
      simp [verify_google_token, hacc, hw, hst]
    · intro hw
      simp [verify_google_token, hacc, hw]
    · intro ti e hw hti he
      simp [verify_google_token, hacc, hw, hti, he]
    · intro ti hw hui
      cases hbad : (match ti.expires_in with
        | some e => decide (e ≤ 0)
        | none => false : Bool) with
      | true => simp [verify_google_token, hacc, hw, hbad]
      | false => simp [verify_google_token, hacc, hw, hbad, hui]
    · intro ti st2 b2 hw hui hst2
      cases hbad : (match ti.expires_in with
        | some e => decide (e ≤ 0)
        | none => false : Bool) with
      | true => simp [verify_google_token, hacc, hw, hbad]
      | false => simp [verify_google_token, hacc, hw, hbad, hui, hst2]
    · intro ti hw hui
      cases hbad : (match ti.expires_in with
        | some e => decide (e ≤ 0)
        | none => false : Bool) with
      | true => simp [verify_google_token, hacc, hw, hbad]
      | false => simp [verify_google_token, hacc, hw, hbad, hui]
  · intro hacc
    refine ⟨?_, ?_, ?_, ?_⟩
    · intro hv
      simp [verify_google_token, verify_oauth2_token, hacc, hv]
    · intro hexp
      simp [verify_google_token, verify_oauth2_token, hacc, hexp]
    · intro haud
      simp [verify_google_token, verify_oauth2_token, hacc, haud]
    · intro ident h
      by_cases hexp : f.expired = true
      · exfalso
        simp [verify_google_token, verify_oauth2_token, hacc, hexp] at h
      · by_cases haud : f.claims.aud = cid
        · exact ⟨Bool.not_eq_true f.expired ▸ hexp, haud⟩
        · exfalso
          simp [verify_google_token, verify_oauth2_token, hacc, haud] at h

/-- C8 witness: concrete probes of the fail-closed paths — an
access-token verification hitting a network timeout, one answered with
a 500, one with an expired token, and an ID token whose audience does
not match the configured client id all return `none`. -/
theorem verify_google_token_fails_closed_witness :
    verify_google_token "cid1"
        { tokeninfo := .timeout, userinfo := .timeout }
        { valid := true, expired := false,
          claims := { aud := "cid1", email := some "e@x.com", name := none,
                      sub := none, email_verified := none } }
        "ya29.tok" = none
    ∧ verify_google_token "cid1"
        { tokeninfo := .resp 500 none, userinfo := .timeout }
        { valid := true, expired := false,
          claims := { aud := "cid1", email := some "e@x.com", name := none,
                      sub := none, email_verified := none } }
        "1//tok" = none
    ∧ verify_google_token "cid1"
        { tokeninfo := .resp 200 (some { expires_in := some (-3) }), userinfo := .timeout }
        { valid := true, expired := false,
          claims := { aud := "cid1", email := some "e@x.com", name := none,
                      sub := none, email_verified := none } }
        "ya29.tok" = none
    ∧ verify_google_token "cid1"
        { tokeninfo := .timeout, userinfo := .timeout }
        { valid := true, expired := false,
          claims := { aud := "cid2", email := some "e@x.com", name := none,
                      sub := none, email_verified := none } }
        "eyJhbGciOiJSUzI1NiJ9" = none := by
  refine ⟨?_, ?_, ?_, ?_⟩
  · exact (verify_google_token_fails_closed "cid1"
      { tokeninfo := .timeout, userinfo := .timeout } _ "ya29.tok").1 rfl |>.1 rfl
  · exact ((verify_google_token_fails_closed "cid1"
      { tokeninfo := .resp 500 none, userinfo := .timeout } _ "1//tok").1 rfl
      |>.2.1) 500 none rfl (by decide)
  · exact ((verify_google_token_fails_closed "cid1"
      { tokeninfo := .resp 200 (some { expires_in := some (-3) }),
        userinfo := .timeout } _ "ya29.tok").1 rfl
      |>.2.2.2.1) { expires_in := some (-3) } (-3) rfl rfl (by decide)
  · exact ((verify_google_token_fails_closed "cid1"
      { tokeninfo := .timeout, userinfo := .timeout }
      { valid := true, expired := false,
        claims := { aud := "cid2", email := some "e@x.com", name := none,
                    sub := none, email_verified := none } }
      "eyJhbGciOiJSUzI1NiJ9").2 rfl |>.2.2.1) (by decide)

/-! ### Claim C2 -/

/-- C2: ownership isolation.  When no stored dataset (resp. plot) with
identifier `i` is owned by the requesting user `u` — which covers both
"the identifier refers to no record at all" and "it refers to a record
owned by a different user", so the two situations are outwardly
indistinguishable — the lookup returns `none`, the data read returns
`[]`, the stats read returns `none`, delete reports `false` and leaves
the store untouched, plot update returns `none` and leaves the store
untouched, and plot playback fails with the same not-found error.
Unconditionally, a returned dataset or plot is always owned by `u`, and
no delete or update ever removes or rewrites a document of another
user: non-owned datasets and plots survive delete/update unchanged, and
a data record is only ever deleted together with a dataset of `u`
holding its `dataset_id`. -/
theorem ownership_isolation :
    ∀ (s : DB) (u i : Nat),
      ((∀ d ∈ s.datasets, ¬(d.id = i ∧ d.user_id = u)) →
        get_dataset_by_id s i u = none
        ∧ (∀ limit skip, get_dataset_data s i u limit skip = [])
        ∧ get_dataset_stats s i u = none
        ∧ delete_dataset s i u = (false, s))
      ∧ ((∀ p ∈ s.plots, ¬(p.id = i ∧ p.user_id = u)) →
        get_plot_by_id s i u = none
        ∧ (∀ pu, update_plot s i u pu = (none, s))
        ∧ delete_plot s i u = (false, s)
        ∧ generate_plot_data s i u = .error "Plot not found")
      ∧ (∀ d, get_dataset_by_id s i u = some d → d.user_id = u)
      ∧ (∀ p, get_plot_by_id s i u = some p → p.user_id = u)
      ∧ (∀ d ∈ s.datasets, d.user_id ≠ u → d ∈ (delete_dataset s i u).2.datasets)
      ∧ (∀ r ∈ s.data_records, r ∉ (delete_dataset s i u).2.data_records →
          ∃ d ∈ s.datasets, d.id = r.dataset_id ∧ d.user_id = u)
      ∧ (∀ p ∈ s.plots, p.user_id ≠ u → ∀ pu, p ∈ (update_plot s i u pu).2.plots)
      ∧ (∀ p ∈ s.plots, p.user_id ≠ u → p ∈ (delete_plot s i u).2.plots) := by
  intro s u i
  refine ⟨?_, ?_, ?_, ?_, ?_, ?_, ?_, ?_⟩
  · intro hnd
    have hfind : s.datasets.find? (fun d => d.id == i && d.user_id == u) = none :=
      List.find?_eq_none.mpr fun d hd => by simpa using hnd d hd
    have hget : get_dataset_by_id s i u = none := hfind
    refine ⟨hget, ?_, ?_, ?_⟩
    · intro limit skip
      unfold get_dataset_data
      rw [hget]
    · unfold get_dataset_stats
      rw [hget]
    · unfold delete_dataset
      rw [hget]
  · intro hnp
    have hfind : s.plots.find? (fun p => p.id == i && p.user_id == u) = none :=
      List.find?_eq_none.mpr fun p hp => by simpa using hnp p hp
    have hget : get_plot_by_id s i u = none := hfind
    have hnotp : ∀ p ∈ s.plots, ¬((fun p : PlotDoc => p.id == i && p.user_id == u) p = true) :=
      fun p hp => by simpa using hnp p hp
    refine ⟨hget, ?_, ?_, ?_⟩
    · intro pu
      unfold update_plot
      have hs' :
          (if pu.isEmptyUpdate then s
           else { s with
             plots := updateFirst (fun p => p.id == i && p.user_id == u)
               (applyPlotUpdate pu) s.plots }) = s := by
        by_cases hemp : pu.isEmptyUpdate = true
        · rw [if_pos hemp]
        · rw [if_neg hemp, updateFirst_of_forall_not hnotp]
      rw [hs']
      simp only [hget]
    · unfold delete_plot
      have hany : s.plots.any (fun p => p.id == i && p.user_id == u) = false := by
        rw [List.any_eq_false]
        exact hnotp
      rw [hany, List.eraseP_of_forall_not hnotp]
    · unfold generate_plot_data
      rw [hget]
  · intro d hd
    unfold get_dataset_by_id at hd
    have := List.find?_some hd
    simp only [Bool.and_eq_true, beq_iff_eq] at this
    exact this.2
  · intro p hp
    unfold get_plot_by_id at hp
    have := List.find?_some hp
    simp only [Bool.and_eq_true, beq_iff_eq] at this
    exact this.2
  · intro d hd hdu
    unfold delete_dataset
    cases hget : get_dataset_by_id s i u with
    | none => exact hd
    | some d0 =>
      have hpd : ¬((fun x : DatasetDoc => x.id == i && x.user_id == u) d = true) := by
        simp only [Bool.and_eq_true, beq_iff_eq]
        exact fun hc => hdu hc.2
      exact (@List.mem_eraseP_of_neg _ (fun x : DatasetDoc => x.id == i && x.user_id == u)
        d s.datasets hpd).mpr hd
  · intro r hr hrdel
    cases hget : get_dataset_by_id s i u with
    | none =>
      exfalso
      unfold delete_dataset at hrdel
      rw [hget] at hrdel
      exact hrdel hr
    | some d0 =>
      have hd0 := List.find?_some hget
      simp only [Bool.and_eq_true, beq_iff_eq] at hd0
      have hd0mem : d0 ∈ s.datasets := List.mem_of_find?_eq_some hget
      unfold delete_dataset at hrdel
      rw [hget] at hrdel
      have hri : r.dataset_id = i := by
        by_contra hri
        exact hrdel (List.mem_filter.mpr ⟨hr, by simpa using hri⟩)
      exact ⟨d0, hd0mem, by rw [hd0.1, hri], hd0.2⟩
  · intro p hp hpu pu
    unfold update_plot
    have hpd : ¬((fun x : PlotDoc => x.id == i && x.user_id == u) p = true) := by
      simp only [Bool.and_eq_true, beq_iff_eq]
      exact fun hc => hpu hc.2
    by_cases hemp : pu.isEmptyUpdate = true
    · rw [if_pos hemp]
      exact hp
    · rw [if_neg hemp]
      exact mem_updateFirst_of_neg hp hpd
  · intro p hp hpu
    unfold delete_plot
    have hpd : ¬((fun x : PlotDoc => x.id == i && x.user_id == u) p = true) := by
      simp only [Bool.and_eq_true, beq_iff_eq]
      exact fun hc => hpu hc.2
    exact (@List.mem_eraseP_of_neg _ (fun x : PlotDoc => x.id == i && x.user_id == u)
      p s.plots hpd).mpr hp

/-- C2 witness: user 1 probes dataset 5 and plot 6 of `dbOther`, both
owned by user 7: every lookup, read, stats, update and delete behaves
exactly as if the identifiers did not exist, and nothing of user 7 is
removed. -/
theorem ownership_isolation_witness :
    get_dataset_by_id dbOther 5 1 = none
    ∧ get_dataset_data dbOther 5 1 100 0 = []
    ∧ get_dataset_stats dbOther 5 1 = none
    ∧ delete_dataset dbOther 5 1 = (false, dbOther)
    ∧ get_plot_by_id dbOther 6 1 = none
    ∧ update_plot dbOther 6 1 { title := some "stolen" } = (none, dbOther)
    ∧ delete_plot dbOther 6 1 = (false, dbOther)
    ∧ generate_plot_data dbOther 6 1 = .error "Plot not found" := by
  have hd := (ownership_isolation dbOther 1 5).1 (by decide)
  have hp := (ownership_isolation dbOther 1 6).2.1 (by decide)
  exact ⟨hd.1, hd.2.1 100 0, hd.2.2.1, hd.2.2.2, hp.1,
    hp.2.1 { title := some "stolen" }, hp.2.2.1, hp.2.2.2⟩

end PlotApp
